import Mathlib

/-!
Verification of the glyph-coverage rendering pipeline of the font-previewer
application (`src/font-previewer.py`) against its natural-language
specification.  The GUI script is shallowly embedded: the active font and
preview grid become explicit state, the Qt font database and the zip module
become input parameters, and every claim is settled as a theorem about the
embedded operations.
-/

/-- A loaded font resource.  The only observable the previewer queries on it
is glyph coverage: `QFontMetrics(currentFont).inFontUcs4(code)`.  We model the
handle as its full-range coverage map over Unicode scalar values. -/
structure FontHandle where
  cmap : Nat → Bool

/-- `QFontMetrics.inFontUcs4`: the previewer's coverage probe
(src/font-previewer.py lines 216 and 243).  The code point is passed through
unmodified — a full UCS-4 (21-bit) query against the handle's coverage map,
with no truncation to 16-bit code units and no filtering of any kind. -/
def inFontUcs4 (h : FontHandle) (cp : Nat) : Bool :=
  h.cmap cp

/-- Modelled from the spec: the narrow 16-bit-code-unit lookup that a
previewer restricted to single UTF-16 code units would use (spec §4.2 and
§9 name this variant as the latent bug to guard against).  It is absent from
the source; it exists here only to contrast with `inFontUcs4`. -/
def inFont16 (h : FontHandle) (cp : Nat) : Bool :=
  if cp ≤ 0xFFFF then h.cmap cp else false

/-- A `QFont` as the previewer observes it: family, point size and the two
style flags (src/font-previewer.py lines 175, 259, 263-265). -/
structure QFont where
  family : String
  pointSize : Int
  bold : Bool
  italic : Bool
deriving DecidableEq

/-- The kind of one widget placed into the preview `QGridLayout`
(src/font-previewer.py lines 209-250): a reference label showing the
character and its decimal code, a glyph cell (blank when the probe answers
false — the widget then holds the empty string), or the full-width
"Other Unicode" separator label. -/
inductive CellKind where
  | label (text : String)
  | glyph (code : Nat) (supported : Bool)
  | separator (text : String)
deriving DecidableEq

/-- One cell of the preview grid: its kind plus the `addWidget` placement
arguments row, column and column span (row span is always 1 in the source
and is omitted). -/
structure Cell where
  kind : CellKind
  row : Nat
  col : Nat
  colSpan : Nat
deriving DecidableEq

/-- The text of a reference label: `f"{ch} ({code})"`
(src/font-previewer.py lines 209 and 237). -/
def labelText (code : Nat) : String :=
  String.singleton (Char.ofNat code) ++ " (" ++ toString code ++ ")"

/-- `cols = 10` (src/font-previewer.py line 200). -/
def cols : Nat := 10

/-- A block of label/glyph cell pairs: for each `k < n`, the label `f k`
immediately followed by the glyph `g k`, exactly as each loop iteration of
`render_preview` adds one reference label and one glyph widget. -/
def pairBlock (f g : Nat → Cell) (n : Nat) : List Cell :=
  (List.range n).flatMap (fun k => [f k, g k])

/-- The reference label of the `idx`-th ASCII code point (`code = 32 + idx`):
placed at row `(idx // cols) * 2`, column `idx % cols`
(src/font-previewer.py lines 203-213). -/
def asciiLabel (idx : Nat) : Cell :=
  { kind := CellKind.label (labelText (32 + idx)),
    row := (idx / cols) * 2, col := idx % cols, colSpan := 1 }

/-- The glyph cell of the `idx`-th ASCII code point, directly below its
label; supported iff `fm.inFontUcs4(code)`
(src/font-previewer.py lines 215-223). -/
def asciiGlyph (h : FontHandle) (idx : Nat) : Cell :=
  { kind := CellKind.glyph (32 + idx) (inFontUcs4 h (32 + idx)),
    row := (idx / cols) * 2 + 1, col := idx % cols, colSpan := 1 }

/-- Part 1 of `render_preview`: the printable-ASCII block.
`ASCII_RANGE = range(32, 127)` has 95 code points
(src/font-previewer.py lines 203-223). -/
def asciiCells (h : FontHandle) : List Cell :=
  pairBlock asciiLabel (asciiGlyph h) 95

/-- `sep_row = ((len(ASCII_RANGE) + cols - 1) // cols) * 2`
(src/font-previewer.py line 226); evaluates to 20. -/
def sepRow : Nat := ((95 + cols - 1) / cols) * 2

/-- The "Other Unicode" separator spanning all `cols` columns
(src/font-previewer.py lines 227-229). -/
def sepCell : Cell :=
  { kind := CellKind.separator "Other Unicode", row := sepRow, col := 0, colSpan := cols }

/-- The reference label of the `j`-th extended code point (`code = 127 + j`),
placed below the separator (src/font-previewer.py lines 232-241). -/
def otherLabel (j : Nat) : Cell :=
  { kind := CellKind.label (labelText (127 + j)),
    row := sepRow + 1 + (j / cols) * 2, col := j % cols, colSpan := 1 }

/-- The glyph cell of the `j`-th extended code point
(src/font-previewer.py lines 243-250). -/
def otherGlyph (h : FontHandle) (j : Nat) : Cell :=
  { kind := CellKind.glyph (127 + j) (inFontUcs4 h (127 + j)),
    row := sepRow + 1 + (j / cols) * 2 + 1, col := j % cols, colSpan := 1 }

/-- Part 3 of `render_preview`: the extended block `range(127, 1025)`
(898 code points) (src/font-previewer.py lines 232-250). -/
def otherCells (h : FontHandle) : List Cell :=
  pairBlock otherLabel (otherGlyph h) 898

/-- `render_preview` (src/font-previewer.py lines 190-250): the freshly built
grid, in the order the widgets are added — ASCII block, separator, extended
block.  The grid is rebuilt from scratch on every call. -/
def render_preview (h : FontHandle) : List Cell :=
  asciiCells h ++ [sepCell] ++ otherCells h

/-- The code point carried by a glyph cell, `none` for the other kinds. -/
def cellCode (c : Cell) : Option Nat :=
  match c.kind with
  | CellKind.glyph code _ => some code
  | _ => none

/-- The support flag carried by a glyph cell, `none` for the other kinds. -/
def cellFlag (c : Cell) : Option Bool :=
  match c.kind with
  | CellKind.glyph _ s => some s
  | _ => none

/-- The code points of the glyph cells of a grid, in order. -/
def glyphCodes (g : List Cell) : List Nat :=
  g.filterMap cellCode

/-- The support flags of the glyph cells of a grid, in order. -/
def glyphFlags (g : List Cell) : List Bool :=
  g.filterMap cellFlag

/-- A handle whose coverage map is empty everywhere. -/
def allFalseHandle : FontHandle :=
  { cmap := fun _ => false }

/-- A handle covering exactly the supplementary-plane code point U+1F600. -/
def emojiHandle : FontHandle :=
  { cmap := fun cp => cp == 0x1F600 }

/-- A handle whose coverage map claims every code point, control characters
included. -/
def allTrueHandle : FontHandle :=
  { cmap := fun _ => true }

-- ## Archive resolution (`on_file_clicked`, zip branch)

/-- One entry of a zip archive: its name and its bytes. -/
structure ZipEntry where
  name : String
  data : List Nat
deriving DecidableEq

/-- The two distinguishable archive failures surfaced by `on_file_clicked`:
`zipfile.BadZipFile` → the "Invalid ZIP archive" warning, and an archive with
no font entries → the "no fonts in here" message
(src/font-previewer.py lines 148-158). -/
inductive ArchiveError where
  | invalid
  | noFontEntry
deriving DecidableEq

/-- ASCII lowercasing of a character list, modelling Python `str.lower()` on
the ASCII filenames and extensions involved. -/
def lowerChars (l : List Char) : List Char :=
  l.map Char.toLower

/-- `str.endswith(suffix)` on character lists. -/
def endsWithChars (l suffix : List Char) : Bool :=
  suffix.isSuffixOf l

/-- `n.lower().endswith(FONT_EXTS)` with `FONT_EXTS = ('.ttf', '.otf')`
(src/font-previewer.py lines 24 and 151). -/
def isFontName (n : String) : Bool :=
  endsWithChars (lowerChars n.data) ".ttf".data ||
  endsWithChars (lowerChars n.data) ".otf".data

/-- The zip branch of `on_file_clicked` (src/font-previewer.py lines
148-161).  The opened archive is `none` when `zipfile.ZipFile` raises
`BadZipFile`, otherwise the entry list in archive order.  On success the
result carries the bytes handed on to `load_font`; on either error the
function returns before any font load is attempted. -/
def on_file_clicked_zip (z : Option (List ZipEntry)) : Except ArchiveError (List Nat) :=
  match z with
  | none => Except.error ArchiveError.invalid
  | some entries =>
    match entries.filter (fun e => isFontName e.name) with
    | [] => Except.error ArchiveError.noFontEntry
    | e :: _ => Except.ok e.data

-- ## Application state (`FontPreviewer` instance fields)

/-- The previewer state a claim can observe: the active `QFont`, the stored
point size `self.currentFontSize`, the active handle's coverage map, the
current preview grid (the contents of `previewLayout`), and a counter of
`render_preview` invocations used to observe whether a rebuild was
triggered. -/
structure AppState where
  currentFont : QFont
  currentFontSize : Int
  handle : FontHandle
  grid : List Cell
  renders : Nat

/-- Outcome of `QFontDatabase.addApplicationFont` plus
`applicationFontFamilies`: either a negative font id (the byte stream is not
a recognizable font program), or registration succeeds and exposes a family
list together with the font's coverage map. -/
inductive AddFontResult where
  | failed
  | added (families : List String) (cmap : Nat → Bool)

/-- `load_font` (src/font-previewer.py lines 164-179), with the font
database's answer and the two style checkboxes as inputs.  The preview
layout is cleared FIRST (lines 166-168); only then is the font id checked
(`fid < 0` → "Failed to load font.") and the family list checked
(empty → "No font family found.").  On success the active font is replaced
by `QFont(fams[0], self.currentFontSize)` with the checkbox style flags
applied, and `render_preview` rebuilds the grid.  The second component is
the warning message surfaced, if any. -/
def load_font (st : AppState) (res : AddFontResult) (boldChk italicChk : Bool) :
    AppState × Option String :=
  let st1 := { st with grid := [] }
  match res with
  | AddFontResult.failed => (st1, some "Failed to load font.")
  | AddFontResult.added fams cmap =>
    match fams with
    | [] => (st1, some "No font family found.")
    | fam :: _ =>
      let h : FontHandle := { cmap := cmap }
      let f : QFont :=
        { family := fam, pointSize := st.currentFontSize,
          bold := boldChk, italic := italicChk }
      ({ st1 with currentFont := f, handle := h,
                  grid := render_preview h, renders := st.renders + 1 }, none)

/-- A digit string to its value, `none` when empty or containing a
non-digit. -/
def digitsToNat (l : List Char) : Option Nat :=
  match l with
  | [] => none
  | _ => if l.all (fun c => c.isDigit)
         then some (l.foldl (fun a c => a * 10 + (c.toNat - 48)) 0)
         else none

/-- Python `int()` on a character list: surrounding whitespace stripped,
optional sign, then decimal digits. -/
def pyIntChars (l : List Char) : Option Int :=
  let t := ((l.dropWhile (fun c => c.isWhitespace)).reverse.dropWhile
              (fun c => c.isWhitespace)).reverse
  match t with
  | '-' :: rest => (digitsToNat rest).map (fun n => -(n : Int))
  | '+' :: rest => (digitsToNat rest).map (fun n => (n : Int))
  | _ => (digitsToNat t).map (fun n => (n : Int))

/-- `int(text)` as `update_font_settings` applies it to the size field
(Python digit-group underscores and non-ASCII digits are not modelled; the
claims only distinguish "parses to an integer" from "does not parse"). -/
def pyInt (s : String) : Option Int :=
  pyIntChars s.data

/-- `update_font_settings` (src/font-previewer.py lines 252-261).  The size
field is parsed inside `try`: on success the size is stored only when
`sz > 0`; any parse failure is swallowed by `except: pass`.  Afterwards —
unconditionally — the style flags are applied, the point size is re-set to
the stored size, and `render_preview` rebuilds the grid.  No message is ever
surfaced (second component always `none`). -/
def update_font_settings (st : AppState) (sizeText : String)
    (boldChk italicChk : Bool) : AppState × Option String :=
  let newSize :=
    match pyInt sizeText with
    | some sz => if sz > 0 then sz else st.currentFontSize
    | none => st.currentFontSize
  let f : QFont :=
    { st.currentFont with bold := boldChk, italic := italicChk,
                          pointSize := newSize }
  ({ st with currentFontSize := newSize, currentFont := f,
             grid := render_preview st.handle,
             renders := st.renders + 1 }, none)

/-- A concrete populated state used to instantiate the claims: the default
size 46 in the size field, an all-covering active handle and one
already-built grid. -/
def sampleState : AppState :=
  { currentFont := { family := "Sample", pointSize := 46, bold := false, italic := false },
    currentFontSize := 46,
    handle := allTrueHandle,
    grid := render_preview allTrueHandle,
    renders := 1 }

-- ## Helper lemmas about pair blocks and the rendered grid

theorem pairBlock_length (f g : Nat → Cell) (n : Nat) :
    (pairBlock f g n).length = 2 * n := by
  induction n with
  | zero => rfl
  | succ m ih =>
    rw [pairBlock, List.range_succ, List.flatMap_append] at *
    simp only [List.length_append, ih]
    simp
    omega

theorem pairBlock_even (f g : Nat → Cell) (n i : Nat) (h : i < n) :
    (pairBlock f g n)[2 * i]? = some (f i) := by
  induction n with
  | zero => omega
  | succ m ih =>
    rw [pairBlock, List.range_succ, List.flatMap_append]
    have heq : (List.range m).flatMap (fun k => [f k, g k]) = pairBlock f g m := rfl
    have hlen : ((List.range m).flatMap (fun k => [f k, g k])).length = 2 * m := by
      rw [heq, pairBlock_length]
    by_cases hc : i < m
    · rw [List.getElem?_append_left (by omega)]
      exact ih hc
    · have hi : i = m := by omega
      subst hi
      rw [List.getElem?_append_right (by omega), hlen]
      simp

theorem pairBlock_odd (f g : Nat → Cell) (n i : Nat) (h : i < n) :
    (pairBlock f g n)[2 * i + 1]? = some (g i) := by
  induction n with
  | zero => omega
  | succ m ih =>
    rw [pairBlock, List.range_succ, List.flatMap_append]
    have heq : (List.range m).flatMap (fun k => [f k, g k]) = pairBlock f g m := rfl
    have hlen : ((List.range m).flatMap (fun k => [f k, g k])).length = 2 * m := by
      rw [heq, pairBlock_length]
    by_cases hc : i < m
    · rw [List.getElem?_append_left (by omega)]
      exact ih hc
    · have hi : i = m := by omega
      subst hi
      have h1 : 2 * i + 1 - 2 * i = 1 := by omega
      rw [List.getElem?_append_right (by omega), hlen, h1]
      simp

theorem pairBlock_filterMap {α : Type} (f g : Nat → Cell) (p : Cell → Option α)
    (v : Nat → α) (n : Nat)
    (hf : ∀ k, p (f k) = none) (hg : ∀ k, p (g k) = some (v k)) :
    (pairBlock f g n).filterMap p = (List.range n).map v := by
  induction n with
  | zero => rfl
  | succ m ih =>
    rw [pairBlock, List.range_succ, List.flatMap_append, List.filterMap_append]
    have heq : (List.range m).flatMap (fun k => [f k, g k]) = pairBlock f g m := rfl
    rw [heq, ih, List.map_append]
    simp [hf, hg]

theorem render_preview_length (h : FontHandle) :
    (render_preview h).length = 1987 := by
  rw [render_preview]
  simp only [List.length_append, List.length_cons, List.length_nil]
  rw [asciiCells, otherCells, pairBlock_length, pairBlock_length]

theorem glyphCodes_render (h : FontHandle) :
    glyphCodes (render_preview h) =
      (List.range 95).map (fun k => 32 + k) ++ (List.range 898).map (fun k => 127 + k) := by
  rw [render_preview, glyphCodes, List.filterMap_append, List.filterMap_append]
  rw [asciiCells, otherCells,
      pairBlock_filterMap asciiLabel (asciiGlyph h) cellCode (fun k => 32 + k) 95
        (fun k => rfl) (fun k => rfl),
      pairBlock_filterMap otherLabel (otherGlyph h) cellCode (fun k => 127 + k) 898
        (fun k => rfl) (fun k => rfl)]
  simp [cellCode, sepCell]

theorem glyphFlags_render (h : FontHandle) :
    glyphFlags (render_preview h) =
      (List.range 95).map (fun k => inFontUcs4 h (32 + k)) ++
      (List.range 898).map (fun k => inFontUcs4 h (127 + k)) := by
  rw [render_preview, glyphFlags, List.filterMap_append, List.filterMap_append]
  rw [asciiCells, otherCells,
      pairBlock_filterMap asciiLabel (asciiGlyph h) cellFlag
        (fun k => inFontUcs4 h (32 + k)) 95 (fun k => rfl) (fun k => rfl),
      pairBlock_filterMap otherLabel (otherGlyph h) cellFlag
        (fun k => inFontUcs4 h (127 + k)) 898 (fun k => rfl) (fun k => rfl)]
  simp [cellFlag, sepCell]

-- ## Claims

/-- Claim C5: the coverage probe answers over the full 21-bit scalar range —
it is the handle's coverage map verbatim at every code point, so probing
U+1F600 against a font mapping it answers true, where the narrow
16-bit-code-unit variant would answer false. -/
theorem coverage_probe_full_range (h : FontHandle)
    (hmap : h.cmap 0x1F600 = true) :
    (∀ cp, inFontUcs4 h cp = h.cmap cp) ∧
    inFontUcs4 h 0x1F600 = true ∧
    inFont16 h 0x1F600 = false := by
  refine ⟨fun cp => rfl, ?_, ?_⟩
  · rw [inFontUcs4, hmap]
  · rw [inFont16]
    simp

/-- Claim C5 witness: probing U+1F600 on a handle that maps exactly that
code point. -/
theorem coverage_probe_full_range_witness :
    inFontUcs4 emojiHandle 0x1F600 = true ∧ inFont16 emojiHandle 0x1F600 = false :=
  ⟨(coverage_probe_full_range emojiHandle (by decide)).2.1,
   (coverage_probe_full_range emojiHandle (by decide)).2.2⟩

/-- Claim C6 counterexample: the probe performs no control-character
filtering — on a handle whose charmap contains code point 0x01, the probe
answers supported, so "answers not supported for every code point below
0x20" is false. -/
theorem control_char_probe_counterexample :
    ¬ (∀ (h : FontHandle) (cp : Nat), cp < 0x20 → inFontUcs4 h cp = false) := by
  intro hall
  have h1 := hall allTrueHandle 1 (by omega)
  rw [inFontUcs4] at h1
  simp [allTrueHandle] at h1

/-- Claim C6 (amended): the probe is a verbatim charmap query with no
special-casing of control characters; code points below 0x20 never reach a
grid cell only because both preview ranges start at or above 32. -/
theorem control_chars_never_previewed (h : FontHandle) :
    (∀ cp, inFontUcs4 h cp = h.cmap cp) ∧
    (glyphCodes (render_preview h)).all (fun c => Nat.ble 32 c) = true := by
  refine ⟨fun cp => rfl, ?_⟩
  rw [glyphCodes_render]
  simp only [List.all_append, Bool.and_eq_true, List.all_eq_true, List.mem_map,
    List.mem_range]
  constructor
  · rintro x ⟨k, hk, rfl⟩
    simp only [Nat.ble_eq]
    omega
  · rintro x ⟨k, hk, rfl⟩
    simp only [Nat.ble_eq]
    omega

/-- Claim C2 counterexample: for a handle supporting zero code points, the
grid has 1987 cells — it is not a single informational cell. -/
theorem zero_coverage_counterexample :
    ¬ ((render_preview allFalseHandle).length = 1) := by
  rw [render_preview_length]
  omega

/-- Claim C2 (amended): a font supporting zero code points across all ranges
still yields the full grid — 1987 cells with every one of the 993 glyph
cells present and unsupported (blank); there is no "no characters in file"
single-cell case in the code. -/
theorem zero_coverage_full_grid (h : FontHandle) (hz : ∀ cp, h.cmap cp = false) :
    (render_preview h).length = 1987 ∧
    glyphFlags (render_preview h) = List.replicate 993 false := by
  refine ⟨render_preview_length h, ?_⟩
  rw [glyphFlags_render]
  have h95 : (List.range 95).map (fun k => inFontUcs4 h (32 + k)) =
      List.replicate 95 false := by
    have hmem : ∀ b ∈ (List.range 95).map (fun k => inFontUcs4 h (32 + k)),
        b = false := by
      intro b hb
      rw [List.mem_map] at hb
      obtain ⟨k, hk, rfl⟩ := hb
      rw [inFontUcs4, hz]
    have hlen : ((List.range 95).map (fun k => inFontUcs4 h (32 + k))).length = 95 := by
      rw [List.length_map, List.length_range]
    have h2 := List.eq_replicate_of_mem hmem
    rw [hlen] at h2
    exact h2
  have h898 : (List.range 898).map (fun k => inFontUcs4 h (127 + k)) =
      List.replicate 898 false := by
    have hmem : ∀ b ∈ (List.range 898).map (fun k => inFontUcs4 h (127 + k)),
        b = false := by
      intro b hb
      rw [List.mem_map] at hb
      obtain ⟨k, hk, rfl⟩ := hb
      rw [inFontUcs4, hz]
    have hlen : ((List.range 898).map (fun k => inFontUcs4 h (127 + k))).length = 898 := by
      rw [List.length_map, List.length_range]
    have h2 := List.eq_replicate_of_mem hmem
    rw [hlen] at h2
    exact h2
  rw [h95, h898, ← List.replicate_add]

/-- Claim C2 witness: the amended statement at the all-false handle. -/
theorem zero_coverage_full_grid_witness :
    (render_preview allFalseHandle).length = 1987 ∧
    glyphFlags (render_preview allFalseHandle) = List.replicate 993 false :=
  zero_coverage_full_grid allFalseHandle (fun _ => rfl)

/-- Claim C7: building the ASCII block (code points 32-126, columns = 10)
yields exactly 95 label/glyph pairs; the `i`-th label sits at row
`2 * (i / 10)`, column `i % 10`, with its glyph directly below at row
`2 * (i / 10) + 1`; the last visual row holds the 5 pairs with indices 90-94
(label row 18), and label rows are monotone, advancing by 2 per visual row
of 10 code points. -/
theorem ascii_grid_layout (h : FontHandle) (i : Nat) (hi : i < 95) :
    (asciiCells h).length = 2 * 95 ∧
    (asciiCells h)[2 * i]? = some (asciiLabel i) ∧
    (asciiCells h)[2 * i + 1]? = some (asciiGlyph h i) ∧
    (asciiLabel i).row = 2 * (i / 10) ∧
    (asciiLabel i).col = i % 10 ∧
    (asciiLabel i).kind = CellKind.label (labelText (32 + i)) ∧
    (asciiGlyph h i).row = 2 * (i / 10) + 1 ∧
    (asciiGlyph h i).col = i % 10 ∧
    (asciiGlyph h i).kind = CellKind.glyph (32 + i) (inFontUcs4 h (32 + i)) ∧
    ((asciiLabel i).row = 18 ↔ 90 ≤ i) ∧
    (∀ j, j < 95 → i ≤ j → (asciiLabel i).row ≤ (asciiLabel j).row) ∧
    (i + 10 < 95 → (asciiLabel (i + 10)).row = (asciiLabel i).row + 2) := by
  refine ⟨?_, ?_, ?_, ?_, rfl, rfl, ?_, rfl, rfl, ?_, ?_, ?_⟩
  · rw [asciiCells, pairBlock_length]
  · rw [asciiCells]
    exact pairBlock_even asciiLabel (asciiGlyph h) 95 i hi
  · rw [asciiCells]
    exact pairBlock_odd asciiLabel (asciiGlyph h) 95 i hi
  · show (i / cols) * 2 = 2 * (i / 10)
    rw [cols]
    omega
  · show (i / cols) * 2 + 1 = 2 * (i / 10) + 1
    rw [cols]
    omega
  · show (i / cols) * 2 = 18 ↔ 90 ≤ i
    rw [cols]
    omega
  · intro j hj hij
    show (i / cols) * 2 ≤ (j / cols) * 2
    rw [cols]
    omega
  · intro h10
    show ((i + 10) / cols) * 2 = (i / cols) * 2 + 2
    rw [cols]
    omega

/-- Claim C7 witness: the layout facts instantiated at the last pair
(index 94) of an all-covering handle. -/
theorem ascii_grid_layout_witness :
    (asciiCells allTrueHandle).length = 2 * 95 ∧
    (asciiCells allTrueHandle)[2 * 94]? = some (asciiLabel 94) ∧
    (asciiCells allTrueHandle)[2 * 94 + 1]? = some (asciiGlyph allTrueHandle 94) ∧
    (asciiLabel 94).row = 2 * (94 / 10) ∧
    (asciiLabel 94).col = 94 % 10 ∧
    (asciiLabel 94).kind = CellKind.label (labelText (32 + 94)) ∧
    (asciiGlyph allTrueHandle 94).row = 2 * (94 / 10) + 1 ∧
    (asciiGlyph allTrueHandle 94).col = 94 % 10 ∧
    (asciiGlyph allTrueHandle 94).kind =
      CellKind.glyph (32 + 94) (inFontUcs4 allTrueHandle (32 + 94)) ∧
    ((asciiLabel 94).row = 18 ↔ 90 ≤ 94) ∧
    (∀ j, j < 95 → 94 ≤ j → (asciiLabel 94).row ≤ (asciiLabel j).row) ∧
    (94 + 10 < 95 → (asciiLabel (94 + 10)).row = (asciiLabel 94).row + 2) :=
  ascii_grid_layout allTrueHandle 94 (by omega)

/-- Claim C1 counterexample: with a populated preview grid, a load that
fails with `LoadError::Unparseable` does not leave the grid untouched —
`load_font` clears the layout before checking the font id, leaving an empty
grid where 1987 cells stood. -/
theorem failed_load_grid_counterexample :
    (load_font sampleState AddFontResult.failed false false).fst.grid ≠
      sampleState.grid := by
  intro hgrid
  have h1 : (load_font sampleState AddFontResult.failed false false).fst.grid = [] := rfl
  have h2 : sampleState.grid.length = 1987 := render_preview_length allTrueHandle
  rw [h1] at hgrid
  rw [← hgrid] at h2
  simp at h2

/-- Claim C1 (amended): on either load failure (unparseable bytes or an
empty family list) the active font, its stored size and the handle are
unchanged and the distinct message is surfaced, but the preview grid is
cleared to empty — the layout is emptied before the failure is detected. -/
theorem failed_load_leaves_font (st : AppState) (b i : Bool) (cm : Nat → Bool) :
    ((load_font st AddFontResult.failed b i).fst.currentFont = st.currentFont ∧
     (load_font st AddFontResult.failed b i).fst.currentFontSize = st.currentFontSize ∧
     (load_font st AddFontResult.failed b i).fst.handle = st.handle ∧
     (load_font st AddFontResult.failed b i).fst.grid = [] ∧
     (load_font st AddFontResult.failed b i).snd = some "Failed to load font.") ∧
    ((load_font st (AddFontResult.added [] cm) b i).fst.currentFont = st.currentFont ∧
     (load_font st (AddFontResult.added [] cm) b i).fst.currentFontSize = st.currentFontSize ∧
     (load_font st (AddFontResult.added [] cm) b i).fst.handle = st.handle ∧
     (load_font st (AddFontResult.added [] cm) b i).fst.grid = [] ∧
     (load_font st (AddFontResult.added [] cm) b i).snd = some "No font family found.") :=
  ⟨⟨rfl, rfl, rfl, rfl, rfl⟩, ⟨rfl, rfl, rfl, rfl, rfl⟩⟩

/-- Claim C3 counterexample: a size of 501 reaching the core is accepted —
the stored size becomes 501 instead of staying at the prior 46; there is no
core-level upper clamp. -/
theorem setsize_501_counterexample :
    (update_font_settings sampleState "501" false false).fst.currentFontSize = 501 ∧
    ¬ ((update_font_settings sampleState "501" false false).fst.currentFontSize =
        sampleState.currentFontSize) := by
  constructor
  · decide
  · intro hc
    have h46 : sampleState.currentFontSize = 46 := rfl
    rw [h46] at hc
    have h501 : (update_font_settings sampleState "501" false false).fst.currentFontSize = 501 := by
      decide
    rw [h501] at hc
    exact absurd hc (by decide)

/-- Claim C3 (amended): the core rejects only non-positive sizes — every
parsed size `n > 0`, 500 and 501 alike, is stored; the 1-500 bound is
enforced solely by the external `QIntValidator` control. -/
theorem core_accepts_any_positive_size (st : AppState) (text : String)
    (b i : Bool) (n : Int) (hp : pyInt text = some n) (hpos : 0 < n) :
    (update_font_settings st text b i).fst.currentFontSize = n := by
  rw [update_font_settings]
  simp only [hp]
  simp [hpos]

/-- Claim C3 witness: `setSize(500)` succeeds through the core. -/
theorem core_accepts_any_positive_size_witness :
    (update_font_settings sampleState "500" false false).fst.currentFontSize = 500 :=
  core_accepts_any_positive_size sampleState "500" false false 500 (by decide) (by decide)

/-- Claim C4 counterexample: `setSize(0)` is rejected (the stored size stays
at 46) yet the call still triggers a grid rebuild — the `render_preview`
invocation counter advances, contradicting "no grid rebuild is triggered by
the rejected call". -/
theorem rejected_setsize_rebuild_counterexample :
    (update_font_settings sampleState "0" false false).fst.currentFontSize =
      sampleState.currentFontSize ∧
    ¬ ((update_font_settings sampleState "0" false false).fst.renders =
        sampleState.renders) := by
  constructor
  · decide
  · intro hc
    have h1 : (update_font_settings sampleState "0" false false).fst.renders = 2 := rfl
    have h2 : sampleState.renders = 1 := rfl
    rw [h1, h2] at hc
    exact absurd hc (by decide)

/-- Claim C4 (amended): every non-positive parsed size is rejected — the
stored size and the point size applied to the font keep their prior value —
but the call still performs one full grid rebuild with that prior size. -/
theorem rejected_setsize_keeps_size (st : AppState) (text : String)
    (b i : Bool) (n : Int) (hp : pyInt text = some n) (hnp : n ≤ 0) :
    (update_font_settings st text b i).fst.currentFontSize = st.currentFontSize ∧
    (update_font_settings st text b i).fst.currentFont.pointSize = st.currentFontSize ∧
    (update_font_settings st text b i).fst.renders = st.renders + 1 ∧
    (update_font_settings st text b i).fst.grid = render_preview st.handle := by
  rw [update_font_settings]
  simp only [hp]
  simp [show ¬ (0 < n) by omega]

/-- Claim C4 witness: the amended statement at `setSize(0)` on the sample
state. -/
theorem rejected_setsize_keeps_size_witness :
    (update_font_settings sampleState "0" false false).fst.currentFontSize =
      sampleState.currentFontSize ∧
    (update_font_settings sampleState "0" false false).fst.currentFont.pointSize =
      sampleState.currentFontSize ∧
    (update_font_settings sampleState "0" false false).fst.renders =
      sampleState.renders + 1 ∧
    (update_font_settings sampleState "0" false false).fst.grid =
      render_preview sampleState.handle :=
  rejected_setsize_keeps_size sampleState "0" false false 0 (by decide) (by decide)

/-- Claim C10: a size-field text that does not parse as an integer is
swallowed by `except: pass` — no message is surfaced, the stored size keeps
its prior value, and the call still performs a full rebuild applying the
prior size together with the current bold/italic flags. -/
theorem unparseable_size_swallowed (st : AppState) (text : String)
    (b i : Bool) (hp : pyInt text = none) :
    (update_font_settings st text b i).snd = none ∧
    (update_font_settings st text b i).fst.currentFontSize = st.currentFontSize ∧
    (update_font_settings st text b i).fst.currentFont.pointSize = st.currentFontSize ∧
    (update_font_settings st text b i).fst.currentFont.bold = b ∧
    (update_font_settings st text b i).fst.currentFont.italic = i ∧
    (update_font_settings st text b i).fst.renders = st.renders + 1 ∧
    (update_font_settings st text b i).fst.grid = render_preview st.handle := by
  rw [update_font_settings]
  simp [hp]

/-- Claim C10 witness: the text "4x6" does not parse; the settings update on
the sample state swallows it. -/
theorem unparseable_size_swallowed_witness :
    (update_font_settings sampleState "4x6" true false).snd = none ∧
    (update_font_settings sampleState "4x6" true false).fst.currentFontSize =
      sampleState.currentFontSize ∧
    (update_font_settings sampleState "4x6" true false).fst.currentFont.pointSize =
      sampleState.currentFontSize ∧
    (update_font_settings sampleState "4x6" true false).fst.currentFont.bold = true ∧
    (update_font_settings sampleState "4x6" true false).fst.currentFont.italic = false ∧
    (update_font_settings sampleState "4x6" true false).fst.renders =
      sampleState.renders + 1 ∧
    (update_font_settings sampleState "4x6" true false).fst.grid =
      render_preview sampleState.handle :=
  unparseable_size_swallowed sampleState "4x6" true false (by decide)

/-- Helper: a list of entries none of which is font-like filters to the
empty list. -/
theorem filter_fonts_eq_nil (l : List ZipEntry)
    (hl : ∀ x ∈ l, isFontName x.name = false) :
    l.filter (fun e => isFontName e.name) = [] := by
  rw [List.filter_eq_nil_iff]
  intro x hx
  rw [hl x hx]
  simp

/-- Claim C8: for any archive whose entry list is some non-font prefix, then
a font-like entry `e`, then anything, `on_file_clicked` selects exactly
`e`'s bytes — the first font-like entry in archive order. -/
theorem zip_selects_first_font_entry (pre : List ZipEntry) (e : ZipEntry)
    (post : List ZipEntry)
    (hpre : ∀ x ∈ pre, isFontName x.name = false)
    (he : isFontName e.name = true) :
    on_file_clicked_zip (some (pre ++ e :: post)) = Except.ok e.data := by
  rw [on_file_clicked_zip]
  have hfil : (pre ++ e :: post).filter (fun x => isFontName x.name) =
      e :: post.filter (fun x => isFontName x.name) := by
    rw [List.filter_append, filter_fonts_eq_nil pre hpre, List.nil_append,
        List.filter_cons, if_pos he]
  rw [hfil]

/-- Claim C8 witness: a zip listing `a.otf` then `b.ttf` yields `a.otf`'s
bytes. -/
theorem zip_selects_first_font_entry_witness :
    on_file_clicked_zip
      (some [{ name := "a.otf", data := [0xA] }, { name := "b.ttf", data := [0xB] }]) =
      Except.ok [0xA] :=
  zip_selects_first_font_entry [] { name := "a.otf", data := [0xA] }
    [{ name := "b.ttf", data := [0xB] }] (by intro x hx; simp at hx) (by decide)

/-- Claim C9: a corrupt archive yields the invalid-archive outcome, a
well-formed archive with no `.ttf`/`.otf` entry yields the distinct
no-font-entry outcome, and in both cases the result is an error — no bytes
are handed to the font loader. -/
theorem archive_errors_distinguished (entries : List ZipEntry)
    (hnone : ∀ x ∈ entries, isFontName x.name = false) :
    on_file_clicked_zip none = Except.error ArchiveError.invalid ∧
    on_file_clicked_zip (some entries) = Except.error ArchiveError.noFontEntry ∧
    ArchiveError.invalid ≠ ArchiveError.noFontEntry := by
  refine ⟨rfl, ?_, by decide⟩
  rw [on_file_clicked_zip, filter_fonts_eq_nil entries hnone]

/-- Claim C9 witness: a zip holding only `readme.txt` yields the
no-font-entry outcome. -/
theorem archive_errors_distinguished_witness :
    on_file_clicked_zip (some [{ name := "readme.txt", data := [] }]) =
      Except.error ArchiveError.noFontEntry :=
  (archive_errors_distinguished [{ name := "readme.txt", data := [] }]
    (by decide)).2.1
